import Mathlib

/-!
Verification development for the `znpg1` repository, a pair of Streamlit
applications (`app.py` and `streamlit_app.py`) that photograph a handwritten
English exercise, send it to a hosted multimodal model for grading, parse the
JSON reply, and render the result back onto the photo.

The Python sources are shallowly embedded here:

* PIL images are modelled by their width, height, mode string and EXIF
  orientation tag (`PImage`); pixel contents are not needed by any claim.
* Drawing is modelled as a trace: the overlay layer (its size and initial
  fill colour) together with the list of drawing commands issued on it, and
  the composited output image (`DrawTrace`).
* JSON replies are modelled by an inductive `Json` type whose numbers are
  integers (the prompts request integer scores and integer 0-1000 box
  coordinates).  Python exceptions are modelled by `Except String`.
* Python float arithmetic is modelled by exact rational arithmetic.  Every
  float constant appearing in the sources (0.25, 0.55, 0.65, 0.3, 0.1, 0.45)
  multiplies an integer, and the exact products lie on a grid of spacing
  1/20 or 1/10, far coarser than double rounding error, so the integer
  truncations agree with the rational ones.
* The Streamlit session is modelled as a record, and one rerun of the script
  processing one user interaction is modelled as a step function on it.

Namespace `App` embeds `app.py`; namespace `StreamlitApp` embeds
`streamlit_app.py`.
-/

/-- A PIL image, abstracted to the data the claims depend on: pixel
dimensions, mode string ("RGB", "RGBA", ...) and EXIF orientation tag. -/
structure PImage where
  width : Nat
  height : Nat
  mode : String
  orientation : Nat
deriving DecidableEq

/-- `Image.convert(mode)`: returns a converted copy, same dimensions. -/
def PImage.convert (img : PImage) (m : String) : PImage :=
  { img with mode := m }

/-- `Image.copy()`: returns a fresh copy of the image. -/
def PImage.copy (img : PImage) : PImage := img

/-- The payload produced by `pil_to_base64`: which image was encoded, in
which format, at which JPEG quality.  The base64 text itself is opaque. -/
structure EncodedImage where
  source : PImage
  format : String
  quality : Nat
deriving DecidableEq

/-- Dataclass `ErrorItem` (same shape in both sources). -/
structure ErrorItem where
  description : String
  box : List Int
deriving DecidableEq

/-- Dataclass `GradeResult` (same shape in both sources). -/
structure GradeResult where
  score : Int
  max_score : Int
  short_comment : String
  errors : List ErrorItem
  analysis_md : String
deriving DecidableEq

/-- JSON values as returned by `json.loads`; numbers are modelled as
integers (the prompts request integer scores and coordinates). -/
inductive Json where
  | null : Json
  | bool (b : Bool) : Json
  | num (n : Int) : Json
  | str (s : String) : Json
  | arr (xs : List Json) : Json
  | obj (kvs : List (String × Json)) : Json

/-- Python `data.get(key, default)`: only dictionaries have `.get`; on any
other value an `AttributeError` is raised. -/
def Json.getD (j : Json) (key : String) (dflt : Json) : Except String Json :=
  match j with
  | .obj kvs =>
    match kvs.lookup key with
    | some v => .ok v
    | none => .ok dflt
  | _ => .error "AttributeError: get"

/-- Python `e[key]` subscripting on a JSON value: `KeyError` when the key is
missing, `TypeError` when the value is not a dictionary. -/
def Json.getKey (j : Json) (key : String) : Except String Json :=
  match j with
  | .obj kvs =>
    match kvs.lookup key with
    | some v => .ok v
    | none => .error ("KeyError: " ++ key)
  | _ => .error "TypeError: subscript"

/-- Reading a JSON value at the dataclass annotation `str`. -/
def Json.asStr : Json → Except String String
  | .str s => .ok s
  | _ => .error "TypeError: not a string"

/-- Reading a JSON value at annotation `int`. -/
def Json.asInt : Json → Except String Int
  | .num n => .ok n
  | _ => .error "TypeError: not an int"

/-- Iterating a JSON value as a list (annotation `List[...]`). -/
def Json.asArr : Json → Except String (List Json)
  | .arr xs => .ok xs
  | _ => .error "TypeError: not iterable"

/-- Reading each element of a list at annotation `int`. -/
def Json.intsOf : List Json → Except String (List Int)
  | [] => .ok []
  | x :: t => do
    let n ← x.asInt
    let rest ← Json.intsOf t
    pure (n :: rest)

/-- Reading a JSON value at annotation `List[int]`. -/
def Json.asIntList (j : Json) : Except String (List Int) := do
  let xs ← j.asArr
  Json.intsOf xs

/-- Python `int(x)` on a JSON value: identity on integers, string parsing,
`True`/`False` to 1/0, `TypeError` otherwise. -/
def pyInt : Json → Except String Int
  | .num n => .ok n
  | .str s =>
    match s.trim.toInt? with
    | some n => .ok n
    | none => .error "ValueError: invalid literal for int"
  | .bool b => .ok (if b then 1 else 0)
  | _ => .error "TypeError: int"

/-- A font handle: either a successfully opened truetype font or PIL's
built-in bitmap font from `ImageFont.load_default()`. -/
inductive PFont where
  | truetype (path : String) (size : Nat) : PFont
  | load_default : PFont
deriving DecidableEq

/-- An RGBA colour.  A 3-tuple colour passed to a PIL drawing call on an
RGBA layer is fully opaque, i.e. has alpha 255. -/
structure RGBA where
  r : Nat
  g : Nat
  b : Nat
  a : Nat
deriving DecidableEq

/-- A drawing command issued on the overlay layer.  Coordinates are the
exact rational values of the Python float expressions. -/
inductive DrawCmd where
  | rrect (coords : List ℚ) (radius : ℚ) (fill : Option RGBA)
      (outline : Option RGBA) (lineWidth : Nat) : DrawCmd
  | text (x : ℚ) (y : ℚ) (s : String) (font : PFont) (fill : RGBA) : DrawCmd
deriving DecidableEq

/-- The coordinate list of a rounded-rectangle command, `none` for text. -/
def DrawCmd.rectCoords : DrawCmd → Option (List ℚ)
  | .rrect coords _ _ _ _ => some coords
  | .text _ _ _ _ _ => none

/-- `Image.alpha_composite(base, overlay)`: both images must be RGBA and of
equal size (otherwise PIL raises `ValueError`); the result has the size of
`base` and mode RGBA. -/
def alpha_composite (base : PImage) (overlay_size : Nat × Nat) : Option PImage :=
  if (base.width, base.height) = overlay_size then
    some { base with mode := "RGBA" }
  else none

/-- The observable effect of a drawing function: the overlay layer created
by `Image.new` (its size and initial fill), the commands drawn onto that
layer — never onto the input photo — and the composited output image. -/
structure DrawTrace where
  layer_size : Nat × Nat
  layer_fill : RGBA
  cmds : List DrawCmd
  out : Option PImage
deriving DecidableEq

namespace App

/-! ### `app.py` -/

/-- The candidate font paths of `get_system_font`. -/
def font_paths : List String :=
  ["C:/Windows/Fonts/msyh.ttc",
   "C:/Windows/Fonts/simhei.ttf",
   "/System/Library/Fonts/PingFang.ttc",
   "/usr/share/fonts/truetype/wqy/wqy-microhei.ttc"]

/-- Filesystem / font-engine oracle for `app.py`: whether a path exists and
whether `ImageFont.truetype(path, size)` succeeds on it. -/
structure FsEnv where
  pathExists : String → Bool
  truetypeOk : String → Nat → Bool

/-- The loop body of `get_system_font`: paths whose existence check fails
are skipped, a failing `ImageFont.truetype` call is swallowed by the bare
`except: continue`, and the first path that exists and opens is returned. -/
def try_font_paths (env : FsEnv) (size : Nat) : List String → PFont
  | [] => PFont.load_default
  | p :: rest =>
    if env.pathExists p then
      if env.truetypeOk p size then PFont.truetype p size
      else try_font_paths env size rest
    else try_font_paths env size rest

/-- `get_system_font(size)` from `app.py`. -/
def get_system_font (env : FsEnv) (size : Nat) : PFont :=
  try_font_paths env size font_paths

/-- `pil_to_base64` from `app.py`: JPEG at quality 85, image unchanged. -/
def pil_to_base64 (image : PImage) : EncodedImage :=
  { source := image, format := "JPEG", quality := 85 }

/-- One iteration of the error-list loop:
`ErrorItem(description=e["description"], box=e["box"])`. -/
def parse_error_item (e : Json) : Except String ErrorItem := do
  let d ← e.getKey "description"
  let ds ← d.asStr
  let b ← e.getKey "box"
  let bl ← b.asIntList
  pure { description := ds, box := bl }

/-- The `for e in data.get("errors", [])` loop of `app.py`, building the
error list in order; the first raised exception aborts it. -/
def parse_error_list : List Json → Except String (List ErrorItem)
  | [] => .ok []
  | e :: t => do
    let item ← parse_error_item e
    let rest ← parse_error_list t
    pure (item :: rest)

/-- The reply-parsing section of `grade_with_qwen` in `app.py`, applied to
the already `json.loads`-parsed reply.  Any raised exception is propagated
as `Except.error` and caught by the enclosing `try`. -/
def parse_grade_data (data : Json) (max_score : Int) : Except String GradeResult := do
  let errsJ ← data.getD "errors" (Json.arr [])
  let errsL ← errsJ.asArr
  let error_list ← parse_error_list errsL
  let scoreJ ← data.getD "score" (Json.num 0)
  let score ← pyInt scoreJ
  let scJ ← data.getD "short_comment" (Json.str "已完成")
  let sc ← scJ.asStr
  let amJ ← data.getD "analysis_md" (Json.str "- 未提供详细分析")
  let am ← amJ.asStr
  pure { score := score, max_score := max_score, short_comment := sc,
         errors := error_list, analysis_md := am }

/-- `grade_with_qwen` from `app.py`.  `resp` is the outcome of the network
request plus `json.loads` (an exception or the parsed JSON).  Returns the
payload that was sent and the `GradeResult`; every exception raised inside
the `try` block yields the fallback result. -/
def grade_with_qwen (image : PImage) (max_score : Int)
    (resp : Except String Json) : EncodedImage × GradeResult :=
  let base64_img := pil_to_base64 image
  let result :=
    match resp >>= fun data => parse_grade_data data max_score with
    | .ok r => r
    | .error e =>
      { score := 0, max_score := max_score, short_comment := "[Error] 批改失败",
        errors := [], analysis_md := "- 错误详情: " ++ e }
  (base64_img, result)

/-- The rescaling of a normalized 0-1000 box to pixel coordinates:
`x1 = box[0] / 1000 * w` and so on (true division, exact rationals).
Only evaluated under the guard `len(box) == 4`, so the four indexings are
in range. -/
def scaled_box (box : List Int) (w h : Nat) : List ℚ :=
  [((box.getD 0 0 : Int) : ℚ) / 1000 * w,
   ((box.getD 1 0 : Int) : ℚ) / 1000 * h,
   ((box.getD 2 0 : Int) : ℚ) / 1000 * w,
   ((box.getD 3 0 : Int) : ℚ) / 1000 * h]

/-- The rounded-rectangle command drawn for one error in `app.py`:
red outline (255, 0, 0, 200), radius 5, width 4, no fill. -/
def error_rect (e : ErrorItem) (w h : Nat) : DrawCmd :=
  DrawCmd.rrect (scaled_box e.box w h) 5 none (some ⟨255, 0, 0, 200⟩) 4

/-- The score-stamp block of `draw_result_on_image` in `app.py`: a white
rounded rectangle anchored 30 pixels inside the top-right corner, the
score, `/max` and the first ten characters of the comment. -/
def stamp_cmds (env : FsEnv) (w h : Nat) (result : GradeResult) : List DrawCmd :=
  let font_score := get_system_font env (max (w / 20) 40)
  let font_comment := get_system_font env (max (w / 40) 20)
  let margin : Int := 30
  let box_w : Int := (max (w / 4) 250 : Nat)
  let box_h : Int := (max (h / 8) 140 : Nat)
  let c0 : Int := w - box_w - margin
  let c1 : Int := margin
  let c2 : Int := w - margin
  let c3 : Int := margin + box_h
  [DrawCmd.rrect [(c0 : ℚ), (c1 : ℚ), (c2 : ℚ), (c3 : ℚ)] 15
     (some ⟨255, 255, 255, 230⟩) (some ⟨220, 20, 60, 255⟩) 5,
   DrawCmd.text ((c0 + 20 : Int) : ℚ) ((c1 + 15 : Int) : ℚ)
     (toString result.score) font_score ⟨220, 20, 60, 255⟩,
   DrawCmd.text ((c0 + 20 + (w / 15 : Nat) : Int) : ℚ) ((c1 + 30 : Int) : ℚ)
     ("/" ++ toString result.max_score) font_comment ⟨100, 100, 100, 255⟩,
   DrawCmd.text ((c0 + 25 : Int) : ℚ) ((c1 + box_h - 40 : Int) : ℚ)
     (result.short_comment.take 10) font_comment ⟨220, 20, 60, 255⟩]

/-- `draw_result_on_image` from `app.py`.  The photo is converted to an
RGBA copy, a fully transparent overlay of the same size is created, error
rectangles are drawn for the errors whose box has exactly four entries,
then the score stamp, and the function returns the alpha-composite
converted back to RGB. -/
def draw_result_on_image (env : FsEnv) (image : PImage) (result : GradeResult) :
    DrawTrace :=
  let base := image.convert "RGBA"
  let w := base.width
  let h := base.height
  let errCmds := result.errors.filterMap (fun error =>
    if error.box.length = 4 then some (error_rect error w h) else none)
  { layer_size := (base.width, base.height)
    layer_fill := ⟨255, 255, 255, 0⟩
    cmds := errCmds ++ stamp_cmds env w h result
    out := (alpha_composite base (base.width, base.height)).map
      (fun composed => composed.convert "RGB") }

/-- The `st.session_state` of `app.py`, restricted to the keys the script
reads or writes, plus `sent`, recording the last payload handed to the
chat-completion request. -/
structure AppState where
  api_key : String
  mode : String
  captured_image : Option PImage
  grade_result : Option GradeResult
  stamped_image : Option DrawTrace
  sent : Option EncodedImage

/-- One rerun of `app.py`'s script, identified by the user interaction it
processes: saving the API key in the sidebar, the scan page receiving a
camera shot / upload (or none), or the review page rendering (with the
slider's max score, the model's response, and whether the next-student
button was pressed). -/
inductive AppEvent where
  | set_key (k : String) : AppEvent
  | scan_input (img : Option PImage) : AppEvent
  | review_render (max_score : Int) (resp : Except String Json)
      (next_pressed : Bool) : AppEvent

/-- The initial session: empty API key, mode "scan", no per-student keys. -/
def app_init : AppState :=
  { api_key := "", mode := "scan", captured_image := none,
    grade_result := none, stamped_image := none, sent := none }

/-- One step of `app.py`'s `main`: when the API key is empty the script
returns before the page branches; the scan branch stores the opened image
and switches to review; the review branch grades once (storing the result
and the stamped image) and the next-student button deletes the per-student
keys and switches back to scan. -/
def app_step (env : FsEnv) (s : AppState) (ev : AppEvent) : AppState :=
  match ev with
  | .set_key k => { s with api_key := k }
  | .scan_input imgOpt =>
    if s.api_key = "" then s
    else if s.mode = "scan" then
      match imgOpt with
      | some img => { s with captured_image := some img, mode := "review" }
      | none => s
    else s
  | .review_render max_score resp next_pressed =>
    if s.api_key = "" then s
    else if s.mode = "scan" then s
    else
      match s.captured_image with
      | none => s
      | some img =>
        let s :=
          if s.grade_result = none then
            let graded := grade_with_qwen img max_score resp
            { s with grade_result := some graded.2,
                     stamped_image := some (draw_result_on_image env img graded.2),
                     sent := some graded.1 }
          else s
        if next_pressed then
          { s with captured_image := none, grade_result := none,
                   stamped_image := none, mode := "scan" }
        else s

/-- Running `app.py` over a sequence of interactions from the initial
session. -/
def app_run (env : FsEnv) (evs : List AppEvent) : AppState :=
  evs.foldl (app_step env) app_init

end App

namespace StreamlitApp

/-! ### `streamlit_app.py` -/

/-- Network / filesystem / font-engine oracle for `load_font`: whether the
local font file already exists, whether the download succeeds with status
200, and whether `ImageFont.truetype` opens the file at a given size. -/
structure NetFsEnv where
  existsBefore : Bool
  downloadOk : Bool
  truetypeOk : Nat → Bool

/-- `load_font(size)` from `streamlit_app.py`: download the Noto Sans SC
file if it is not present (any download failure is swallowed), then try to
open it, and fall back to `ImageFont.load_default()`. -/
def load_font (env : NetFsEnv) (size : Nat) : PFont :=
  let downloaded := if !env.existsBefore then env.downloadOk else false
  let existsAfter := env.existsBefore || downloaded
  if existsAfter then
    if env.truetypeOk size then PFont.truetype "NotoSansSC-Bold.ttf" size
    else PFont.load_default
  else PFont.load_default

/-- `ImageOps.exif_transpose`: orientations 5-8 swap width and height; the
orientation tag is cleared afterwards. -/
def exif_transpose (img : PImage) : PImage :=
  if 5 ≤ img.orientation ∧ img.orientation ≤ 8 then
    { width := img.height, height := img.width, mode := img.mode, orientation := 1 }
  else
    { img with orientation := 1 }

/-- `process_image_for_ai` from `streamlit_app.py`: EXIF transpose, convert
to RGB, resize to width 800 keeping the aspect ratio
(`h_size = int(h * (800 / w))`, modelled exactly as `h * 800 / w`). -/
def process_image_for_ai (image_file : PImage) : PImage :=
  let img := exif_transpose image_file
  let img := if img.mode ≠ "RGB" then img.convert "RGB" else img
  let base_width : Nat := 800
  let h_size : Nat := img.height * base_width / img.width
  { img with width := base_width, height := h_size }

/-- `pil_to_base64` from `streamlit_app.py`: converts to RGB when needed,
JPEG at quality 65. -/
def pil_to_base64 (image : PImage) : EncodedImage :=
  let image := if image.mode ≠ "RGB" then image.convert "RGB" else image
  { source := image, format := "JPEG", quality := 65 }

/-- One entry of the error list: `ErrorItem(**e)`.  Keyword expansion
requires `e` to be a mapping whose keys are exactly the dataclass fields
(a missing field or an unexpected keyword raises `TypeError`). -/
def parse_error_item (e : Json) : Except String ErrorItem :=
  match e with
  | .obj kvs =>
    if kvs.all (fun kv => kv.fst == "description" || kv.fst == "box") then do
      let d ← (Json.obj kvs).getKey "description"
      let ds ← d.asStr
      let b ← (Json.obj kvs).getKey "box"
      let bl ← b.asIntList
      pure { description := ds, box := bl }
    else .error "TypeError: unexpected keyword argument"
  | _ => .error "TypeError: argument after ** must be a mapping"

/-- The `[ErrorItem(**e) for e in data.get("errors", [])]` comprehension,
building the error list in order; the first raised exception aborts it. -/
def parse_error_list : List Json → Except String (List ErrorItem)
  | [] => .ok []
  | e :: t => do
    let item ← parse_error_item e
    let rest ← parse_error_list t
    pure (item :: rest)

/-- The reply-parsing section of `grade_with_qwen` in `streamlit_app.py`. -/
def parse_grade_data (data : Json) (current_max_score : Int) :
    Except String GradeResult := do
  let errsJ ← data.getD "errors" (Json.arr [])
  let errsL ← errsJ.asArr
  let error_list ← parse_error_list errsL
  let scoreJ ← data.getD "score" (Json.num 0)
  let score ← pyInt scoreJ
  let scJ ← data.getD "short_comment" (Json.str "已批改")
  let sc ← scJ.asStr
  let amJ ← data.getD "analysis_md" (Json.str "")
  let am ← amJ.asStr
  pure { score := score, max_score := current_max_score, short_comment := sc,
         errors := error_list, analysis_md := am }

/-- `grade_with_qwen` from `streamlit_app.py`.  Returns the list of image
payloads placed into the message content (reference answer first when
present, then the student image) and the `GradeResult`; every exception
inside the `try` yields the fallback result. -/
def grade_with_qwen (student_image : PImage) (ref_image : Option PImage)
    (current_max_score : Int) (resp : Except String Json) :
    List EncodedImage × GradeResult :=
  let student_b64 := pil_to_base64 student_image
  let payloads :=
    match ref_image with
    | some r => [pil_to_base64 r, student_b64]
    | none => [student_b64]
  let result :=
    match resp >>= fun data => parse_grade_data data current_max_score with
    | .ok r => r
    | .error e =>
      { score := 0, max_score := current_max_score, short_comment := "Error",
        errors := [], analysis_md := "错误: " ++ e }
  (payloads, result)

/-- Environment for `draw_result`: the font oracle plus
`font.getlength(text)`, the rendered text width used for the `/max` offset. -/
structure StlEnv where
  net : NetFsEnv
  getlength : PFont → String → ℚ

/-- The score-stamp block of `draw_result` in `streamlit_app.py` (the only
drawing it performs): a rounded rectangle anchored 20 pixels inside the
top-right corner (grey styling when the score is 0, red otherwise), the
score, and `/max` offset by the rendered score width.
`int(w * 0.25)` is exactly `w / 4` and `int(stamp_size * 0.55)` is exactly
`stamp_size * 55 / 100` (see the file comment on float granularity). -/
def stamp_cmds (env : StlEnv) (w : Nat) (result : GradeResult) : List DrawCmd :=
  let stamp_size : Nat := w / 4
  let stamp_h : Nat := stamp_size * 55 / 100
  let margin : Int := 20
  let c0 : Int := w - stamp_size - margin
  let c1 : Int := margin
  let c2 : Int := w - margin
  let c3 : Int := margin + stamp_h
  let is_zero := result.score = 0
  let color : RGBA := if is_zero then ⟨80, 80, 80, 255⟩ else ⟨220, 30, 30, 255⟩
  let bg_color : RGBA := if is_zero then ⟨240, 240, 240, 235⟩ else ⟨255, 255, 255, 235⟩
  let font_score := load_font env.net (stamp_h * 65 / 100)
  let font_small := load_font env.net (stamp_h * 3 / 10)
  let score_str := toString result.score
  let offset_x : ℚ := env.getlength font_score score_str + 25
  [DrawCmd.rrect [(c0 : ℚ), (c1 : ℚ), (c2 : ℚ), (c3 : ℚ)] 15
     (some bg_color) (some color) 4,
   DrawCmd.text ((c0 + 20 : Int) : ℚ) ((c1 : ℚ) + (stamp_h : ℚ) * (1 / 10))
     score_str font_score color,
   DrawCmd.text ((c0 : ℚ) + offset_x) ((c1 : ℚ) + (stamp_h : ℚ) * (45 / 100))
     ("/" ++ toString result.max_score) font_small ⟨120, 120, 120, 255⟩]

/-- `draw_result` from `streamlit_app.py`.  A copy of the photo is
converted to RGBA, a fully transparent overlay of the same size is created,
only the score stamp is drawn — no error rectangles — and the function
returns the alpha-composite converted back to RGB. -/
def draw_result (env : StlEnv) (image : PImage) (result : GradeResult) :
    DrawTrace :=
  let img_draw := image.copy.convert "RGBA"
  { layer_size := (img_draw.width, img_draw.height)
    layer_fill := ⟨255, 255, 255, 0⟩
    cmds := stamp_cmds env img_draw.width result
    out := (alpha_composite img_draw (img_draw.width, img_draw.height)).map
      (fun composed => composed.convert "RGB") }

/-- The `st.session_state` of `streamlit_app.py`, restricted to the keys
the claims touch.  Python's `id(clean_image)` is modelled by pairing each
processed image with a fresh counter value; `history` keeps the recorded
scores; `sent` records the payload list of the last grading request. -/
structure StlState where
  page : String
  api_key : String
  current_score_setting : Int
  ref_image : Option PImage
  last_processed : Option String
  img_counter : Nat
  clean_image : Option (Nat × PImage)
  grade_result : Option GradeResult
  final_image : Option DrawTrace
  current_img_id : Option Nat
  history : List Int
  sent : Option (List EncodedImage)

/-- One rerun of `streamlit_app.py`'s script, identified by the user
interaction it processes.  (The score slider, lock checkbox and history
export widgets are not modelled; no claim touches them.) -/
inductive StlEvent where
  | setup_submit (k : String) : StlEvent
  | modify_key : StlEvent
  | upload_ref (r : Option PImage) : StlEvent
  | scan_input (inp : Option (String × PImage)) : StlEvent
  | review_render (resp : Except String Json) (next_pressed : Bool) : StlEvent

/-- The initial session of `streamlit_app.py`. -/
def stl_init : StlState :=
  { page := "setup", api_key := "", current_score_setting := 100,
    ref_image := none, last_processed := none, img_counter := 0,
    clean_image := none, grade_result := none, final_image := none,
    current_img_id := none, history := [], sent := none }

/-- One step of `streamlit_app.py`'s `main`: the setup form stores a
non-empty key and moves to scan; the sidebar button moves to setup; the
reference uploader stores the processed reference image (or clears it);
the scan page processes a new input image only when its filename differs
from `last_processed` and then moves to review; the review page grades
once per image identity and the next-student button deletes the
per-student keys and moves back to scan. -/
def stl_step (env : StlEnv) (s : StlState) (ev : StlEvent) : StlState :=
  match ev with
  | .setup_submit k =>
    if s.page = "setup" then
      if k = "" then s
      else { s with api_key := k, page := "scan" }
    else s
  | .modify_key => { s with page := "setup" }
  | .upload_ref r =>
    match r with
    | some f => { s with ref_image := some (process_image_for_ai f) }
    | none => { s with ref_image := none }
  | .scan_input inp =>
    if s.page = "scan" then
      match inp with
      | some (name, img) =>
        if s.last_processed ≠ some name then
          { s with last_processed := some name,
                   clean_image := some (s.img_counter, process_image_for_ai img),
                   img_counter := s.img_counter + 1,
                   page := "review" }
        else s
      | none => s
    else s
  | .review_render resp next_pressed =>
    if s.page = "review" then
      match s.clean_image with
      | none => s
      | some (cid, cimg) =>
        let s :=
          if s.grade_result = none ∨ s.current_img_id ≠ some cid then
            let graded := grade_with_qwen cimg s.ref_image s.current_score_setting resp
            { s with current_img_id := some cid,
                     grade_result := some graded.2,
                     final_image := some (draw_result env cimg graded.2),
                     history := s.history ++ [graded.2.score],
                     sent := some graded.1 }
          else s
        if next_pressed then
          { s with clean_image := none, grade_result := none,
                   final_image := none, last_processed := none,
                   current_img_id := none, page := "scan" }
        else s
    else s

/-- Running `streamlit_app.py` over a sequence of interactions from the
initial session. -/
def stl_run (env : StlEnv) (evs : List StlEvent) : StlState :=
  evs.foldl (stl_step env) stl_init

end StreamlitApp

/-! ### Observation helpers and concrete sample values -/

/-- Whether a command is one of `app.py`'s error rectangles: outline
(255, 0, 0, 200), no fill. -/
def DrawCmd.isErrRect : DrawCmd → Bool
  | .rrect _ _ none (some ⟨255, 0, 0, 200⟩) _ => true
  | _ => false

/-- The fill colour of a rounded-rectangle command. -/
def DrawCmd.rectFill : DrawCmd → Option RGBA
  | .rrect _ _ f _ _ => f
  | .text _ _ _ _ _ => none

/-- The outline colour of a rounded-rectangle command. -/
def DrawCmd.rectOutline : DrawCmd → Option RGBA
  | .rrect _ _ _ o _ => o
  | .text _ _ _ _ _ => none

/-- The string of a text command. -/
def DrawCmd.textStr : DrawCmd → Option String
  | .text _ _ s _ _ => some s
  | .rrect _ _ _ _ _ => none

/-- All colours a command paints with (rectangle fill and outline, text
fill). -/
def DrawCmd.colors : DrawCmd → List RGBA
  | .rrect _ _ f o _ => f.toList ++ o.toList
  | .text _ _ _ _ c => [c]

/-- The JSON encoding of one error entry with the given description and
box, as the prompts request it. -/
def entry_json (p : String × List Int) : Json :=
  Json.obj [("description", Json.str p.fst), ("box", Json.arr (p.snd.map Json.num))]

/-- A model reply with an optional score, short comment, error list and
analysis: exactly the object shapes the two prompts request, with each
field independently present or absent. -/
def mk_reply (score : Option Int) (sc : Option String)
    (errs : Option (List (String × List Int))) (am : Option String) : Json :=
  Json.obj
    ((match score with | some n => [("score", Json.num n)] | none => []) ++
     (match sc with | some s => [("short_comment", Json.str s)] | none => []) ++
     (match errs with | some l => [("errors", Json.arr (l.map entry_json))] | none => []) ++
     (match am with | some s => [("analysis_md", Json.str s)] | none => []))

/-- A filesystem oracle on which no font path exists. -/
def sampleFsEnv : App.FsEnv :=
  { pathExists := fun _ => false, truetypeOk := fun _ _ => false }

/-- A network oracle on which the font download fails. -/
def sampleNetEnv : StreamlitApp.NetFsEnv :=
  { existsBefore := false, downloadOk := false, truetypeOk := fun _ => false }

/-- A concrete drawing environment for `streamlit_app.py`. -/
def sampleStlEnv : StreamlitApp.StlEnv :=
  { net := sampleNetEnv, getlength := fun _ s => (s.length : ℚ) * 10 }

/-- A 1000 × 1000 RGB photo. -/
def sampleImg : PImage := { width := 1000, height := 1000, mode := "RGB", orientation := 1 }

/-- A 1600 × 1200 RGB photo, larger than the 800-pixel downscale target. -/
def sampleImgWide : PImage := { width := 1600, height := 1200, mode := "RGB", orientation := 1 }

/-- A concrete error with a well-formed four-entry box. -/
def sampleErr : ErrorItem := { description := "have 应为 has", box := [100, 200, 300, 400] }

/-- A concrete grading result with one error. -/
def sampleRes : GradeResult :=
  { score := 92, max_score := 100, short_comment := "不错",
    errors := [sampleErr], analysis_md := "- 分析" }

/-- An `app.py` session sitting on the scan page with a key saved. -/
def sampleScanState : App.AppState :=
  { api_key := "k", mode := "scan", captured_image := none,
    grade_result := none, stamped_image := none, sent := none }

/-- An `app.py` session sitting on the review page with a graded image. -/
def sampleReviewState : App.AppState :=
  { api_key := "k", mode := "review", captured_image := some sampleImg,
    grade_result := some sampleRes, stamped_image := none, sent := none }

/-- A `streamlit_app.py` session sitting on the scan page. -/
def sampleStlScanState : StreamlitApp.StlState :=
  { StreamlitApp.stl_init with page := "scan", api_key := "k" }

/-- A `streamlit_app.py` session sitting on the review page. -/
def sampleStlReviewState : StreamlitApp.StlState :=
  { StreamlitApp.stl_init with
    page := "review",
    api_key := "k",
    clean_image := some (0, sampleImg),
    img_counter := 1,
    last_processed := some "a.jpg" }

/-- The `app.py` interaction sequence: save a key, photograph a wide image,
render the review page once. -/
def c2_app_events : List App.AppEvent :=
  [App.AppEvent.set_key "k",
   App.AppEvent.scan_input (some sampleImgWide),
   App.AppEvent.review_render 100 (Except.error "e") false]

/-- The `streamlit_app.py` interaction sequence that revisits the scan page
with `last_processed` still set: submit a key, photograph `a.jpg`, press
the modify-key button, submit the key again. -/
def c7_events_head : List StreamlitApp.StlEvent :=
  [StreamlitApp.StlEvent.setup_submit "k",
   StreamlitApp.StlEvent.scan_input (some ("a.jpg", sampleImg)),
   StreamlitApp.StlEvent.modify_key,
   StreamlitApp.StlEvent.setup_submit "k"]

/-! ### Helper lemmas -/

/-- `Except.ok` bind steps for the parsing proofs. -/
theorem except_ok_bind {α β : Type} (a : α) (f : α → Except String β) :
    (Except.ok a >>= f) = f a := rfl

/-- The command list of `app.py`'s drawing trace, definitionally. -/
theorem app_draw_cmds (env : App.FsEnv) (image : PImage) (result : GradeResult) :
    (App.draw_result_on_image env image result).cmds
      = result.errors.filterMap (fun error =>
          if error.box.length = 4 then
            some (App.error_rect error image.width image.height)
          else none)
        ++ App.stamp_cmds env image.width image.height result := rfl

/-- The guarded error loop produces exactly one rectangle per error whose
box has four entries. -/
theorem app_filterMap_err (w h : Nat) (errors : List ErrorItem) :
    errors.filterMap (fun e =>
        if e.box.length = 4 then some (App.error_rect e w h) else none)
      = (errors.filter (fun e => e.box.length == 4)).map
          (fun e => App.error_rect e w h) := by
  induction errors with
  | nil => rfl
  | cons e t ih =>
    by_cases h4 : e.box.length = 4 <;>
      simp [List.filterMap_cons, List.filter_cons, h4, ih]

/-- The error rectangles of `app.py`'s trace are exactly the rescaled boxes
of the errors with four box entries. -/
theorem app_err_filter (env : App.FsEnv) (image : PImage) (result : GradeResult) :
    (App.draw_result_on_image env image result).cmds.filter DrawCmd.isErrRect
      = (result.errors.filter (fun e => e.box.length == 4)).map
          (fun e => App.error_rect e image.width image.height) := by
  rw [app_draw_cmds, List.filter_append, app_filterMap_err]
  have hstamp : (App.stamp_cmds env image.width image.height result).filter
      DrawCmd.isErrRect = [] := rfl
  have herr : ∀ l : List ErrorItem,
      (l.map (fun e => App.error_rect e image.width image.height)).filter
        DrawCmd.isErrRect
        = l.map (fun e => App.error_rect e image.width image.height) := by
    intro l
    induction l with
    | nil => rfl
    | cons e t ih => simp [List.filter_cons, ih, DrawCmd.isErrRect, App.error_rect]
  rw [hstamp, herr, List.append_nil]

/-! ### The claims -/

/-- C10: drawing never mutates the input image (both embedded drawing
functions are pure functions of a converted copy; all commands are issued
on the overlay layer), and for every input image and grading result the
returned output is a new RGB image with exactly the input's pixel
dimensions. -/
theorem c10_draw_frame_effect (env : App.FsEnv) (senv : StreamlitApp.StlEnv)
    (image : PImage) (result : GradeResult) :
    (App.draw_result_on_image env image result).out =
      some { width := image.width, height := image.height,
             mode := "RGB", orientation := image.orientation } ∧
    (StreamlitApp.draw_result senv image result).out =
      some { width := image.width, height := image.height,
             mode := "RGB", orientation := image.orientation } := by
  constructor <;>
    simp [App.draw_result_on_image, StreamlitApp.draw_result, alpha_composite,
      PImage.convert, PImage.copy]

/-- C1: for every grading error whose box is `[x1, y1, x2, y2]` on the
0-1000 grid and every photo of pixel size `w × h`, `app.py` draws the
error rectangle at the rescaled pixel corners
`(x1/1000*w, y1/1000*h)` and `(x2/1000*w, y2/1000*h)`. -/
theorem c1_normalized_box_rescaling (env : App.FsEnv) (image : PImage)
    (result : GradeResult) (err : ErrorItem) (x1 y1 x2 y2 : Int)
    (hmem : err ∈ result.errors) (hbox : err.box = [x1, y1, x2, y2]) :
    DrawCmd.rrect
      [((x1 : Int) : ℚ) / 1000 * image.width, ((y1 : Int) : ℚ) / 1000 * image.height,
       ((x2 : Int) : ℚ) / 1000 * image.width, ((y2 : Int) : ℚ) / 1000 * image.height]
      5 none (some ⟨255, 0, 0, 200⟩) 4
      ∈ (App.draw_result_on_image env image result).cmds := by
  rw [app_draw_cmds]
  refine List.mem_append_left _ (List.mem_filterMap.mpr ⟨err, hmem, ?_⟩)
  simp [hbox, App.error_rect, App.scaled_box]

/-- Witness for C1 at a concrete error and a 1000 × 1000 photo. -/
theorem c1_normalized_box_rescaling_witness :
    sampleErr ∈ sampleRes.errors ∧ sampleErr.box = [100, 200, 300, 400] ∧
    DrawCmd.rrect
      [((100 : Int) : ℚ) / 1000 * sampleImg.width,
       ((200 : Int) : ℚ) / 1000 * sampleImg.height,
       ((300 : Int) : ℚ) / 1000 * sampleImg.width,
       ((400 : Int) : ℚ) / 1000 * sampleImg.height]
      5 none (some ⟨255, 0, 0, 200⟩) 4
      ∈ (App.draw_result_on_image sampleFsEnv sampleImg sampleRes).cmds :=
  ⟨by decide, by decide,
   c1_normalized_box_rescaling sampleFsEnv sampleImg sampleRes sampleErr
     100 200 300 400 (by decide) (by decide)⟩

/-- C9: in `app.py`'s `draw_result_on_image` an error rectangle is drawn
exactly for the errors whose box has length four (any other length draws
nothing and indexes nothing out of range), and the trace always carries the
full stamp block and a complete output image. -/
theorem c9_box_length_guard (env : App.FsEnv) (image : PImage)
    (result : GradeResult) :
    (App.draw_result_on_image env image result).cmds.filter DrawCmd.isErrRect
      = (result.errors.filter (fun e => e.box.length == 4)).map
          (fun e => App.error_rect e image.width image.height)
    ∧ (App.draw_result_on_image env image result).cmds
      = (App.draw_result_on_image env image result).cmds.filter DrawCmd.isErrRect
        ++ App.stamp_cmds env image.width image.height result
    ∧ (App.draw_result_on_image env image result).out
      = some { width := image.width, height := image.height,
               mode := "RGB", orientation := image.orientation } := by
  refine ⟨app_err_filter env image result, ?_, ?_⟩
  · rw [app_err_filter, app_draw_cmds, app_filterMap_err]
  · simp [App.draw_result_on_image, alpha_composite, PImage.convert]

/-- The font loop returns the first path that both exists and opens. -/
theorem try_font_paths_eq_find (env : App.FsEnv) (size : Nat) (l : List String) :
    App.try_font_paths env size l
      = (match l.find? (fun p => env.pathExists p && env.truetypeOk p size) with
         | some p => PFont.truetype p size
         | none => PFont.load_default) := by
  induction l with
  | nil => rfl
  | cons p t ih =>
    cases h1 : env.pathExists p <;> cases h2 : env.truetypeOk p size <;>
      simp [App.try_font_paths, List.find?_cons, h1, h2, ih]

/-- C6: font loading is total and never raises: `app.py` returns the first
candidate path that exists and opens (any failure being swallowed) and
falls back to PIL's default font, and `streamlit_app.py` returns the
downloaded Noto Sans SC file when it is (or becomes) present and opens,
falling back to the default font otherwise. -/
theorem c6_font_fallback (env : App.FsEnv) (net : StreamlitApp.NetFsEnv)
    (size : Nat) :
    App.get_system_font env size
      = (match App.font_paths.find?
            (fun p => env.pathExists p && env.truetypeOk p size) with
         | some p => PFont.truetype p size
         | none => PFont.load_default)
    ∧ StreamlitApp.load_font net size
      = (if (net.existsBefore || net.downloadOk) && net.truetypeOk size then
           PFont.truetype "NotoSansSC-Bold.ttf" size
         else PFont.load_default) := by
  constructor
  · exact try_font_paths_eq_find env size App.font_paths
  · rcases net with ⟨eb, dl, ttf⟩
    cases eb <;> cases dl <;> cases h : ttf size <;>
      simp [StreamlitApp.load_font, h]

/-- Reading back a list of encoded integers round-trips. -/
theorem asint_map_num (xs : List Int) :
    Json.intsOf (xs.map Json.num) = Except.ok xs := by
  induction xs with
  | nil => rfl
  | cons x t ih =>
    simp [Json.intsOf, Json.asInt, ih, Bind.bind, Except.bind, Pure.pure, Except.pure]

/-- `app.py`'s error loop on well-formed entries yields one `ErrorItem` per
entry, in order. -/
theorem app_parse_entries (l : List (String × List Int)) :
    App.parse_error_list (l.map entry_json)
      = Except.ok (l.map fun p => ErrorItem.mk p.fst p.snd) := by
  induction l with
  | nil => rfl
  | cons p t ih =>
    simp [App.parse_error_list, entry_json, App.parse_error_item, Json.getKey,
      Json.asStr, Json.asIntList, Json.asArr, List.lookup, asint_map_num, ih,
      Bind.bind, Except.bind, Pure.pure, Except.pure]

/-- `streamlit_app.py`'s `ErrorItem(**e)` loop on well-formed entries
yields one `ErrorItem` per entry, in order. -/
theorem stl_parse_entries (l : List (String × List Int)) :
    StreamlitApp.parse_error_list (l.map entry_json)
      = Except.ok (l.map fun p => ErrorItem.mk p.fst p.snd) := by
  induction l with
  | nil => rfl
  | cons p t ih =>
    simp [StreamlitApp.parse_error_list, entry_json, StreamlitApp.parse_error_item,
      Json.getKey, Json.asStr, Json.asIntList, Json.asArr, List.lookup,
      asint_map_num, ih, Bind.bind, Except.bind, Pure.pure, Except.pure]

/-- C5: on every reply object of the requested shape, each field
independently present or absent, both `grade_with_qwen` parsers return a
`GradeResult` whose score is the reply's score (0 when absent), whose
max score is the caller's, whose errors are exactly the entries of the
errors array (empty when absent), and whose comment and analysis fall back
to fixed default strings when absent. -/
theorem c5_parse_fields (ms : Int) (score : Option Int) (sc : Option String)
    (errs : Option (List (String × List Int))) (am : Option String) :
    App.parse_grade_data (mk_reply score sc errs am) ms
      = Except.ok
          { score := score.getD 0, max_score := ms,
            short_comment := sc.getD "已完成",
            errors := (errs.getD []).map (fun p => ErrorItem.mk p.fst p.snd),
            analysis_md := am.getD "- 未提供详细分析" }
    ∧ StreamlitApp.parse_grade_data (mk_reply score sc errs am) ms
      = Except.ok
          { score := score.getD 0, max_score := ms,
            short_comment := sc.getD "已批改",
            errors := (errs.getD []).map (fun p => ErrorItem.mk p.fst p.snd),
            analysis_md := am.getD "" } := by
  rcases score with _ | n <;> rcases sc with _ | c <;>
    rcases errs with _ | l <;> rcases am with _ | a <;>
    constructor <;>
    simp [mk_reply, App.parse_grade_data, StreamlitApp.parse_grade_data,
      App.parse_error_list, StreamlitApp.parse_error_list,
      Json.getD, Json.getKey, Json.asStr, Json.asArr, pyInt,
      app_parse_entries, stl_parse_entries, List.lookup,
      Bind.bind, Except.bind, Pure.pure, Except.pure]

/-- C8: no exception from the request or the reply parsing escapes either
`grade_with_qwen`: a raised exception (from the chat-completion call, from
`json.loads`, or from the field extraction) yields a `GradeResult` with
score 0, the caller's max score, an error comment, no errors, and the
exception text embedded in `analysis_md`. -/
theorem c8_exception_fallback (image : PImage) (ref : Option PImage)
    (ms : Int) (e : String) (d1 d2 : Json) (m1 m2 : String)
    (h1 : App.parse_grade_data d1 ms = Except.error m1)
    (h2 : StreamlitApp.parse_grade_data d2 ms = Except.error m2) :
    (App.grade_with_qwen image ms (Except.error e)).2
      = { score := 0, max_score := ms, short_comment := "[Error] 批改失败",
          errors := [], analysis_md := "- 错误详情: " ++ e }
    ∧ (StreamlitApp.grade_with_qwen image ref ms (Except.error e)).2
      = { score := 0, max_score := ms, short_comment := "Error",
          errors := [], analysis_md := "错误: " ++ e }
    ∧ (App.grade_with_qwen image ms (Except.ok d1)).2
      = { score := 0, max_score := ms, short_comment := "[Error] 批改失败",
          errors := [], analysis_md := "- 错误详情: " ++ m1 }
    ∧ (StreamlitApp.grade_with_qwen image ref ms (Except.ok d2)).2
      = { score := 0, max_score := ms, short_comment := "Error",
          errors := [], analysis_md := "错误: " ++ m2 } := by
  refine ⟨rfl, rfl, ?_, ?_⟩ <;>
    simp [App.grade_with_qwen, StreamlitApp.grade_with_qwen, h1, h2,
      Bind.bind, Except.bind]

/-- Witness for C8: a reply that is a JSON array rather than an object
makes `data.get` raise, and both apps fall back. -/
theorem c8_exception_fallback_witness :
    App.parse_grade_data (Json.arr []) 100 = Except.error "AttributeError: get"
    ∧ (App.grade_with_qwen sampleImg 100 (Except.error "boom")).2
      = { score := 0, max_score := 100, short_comment := "[Error] 批改失败",
          errors := [], analysis_md := "- 错误详情: " ++ "boom" }
    ∧ (StreamlitApp.grade_with_qwen sampleImg none 100 (Except.error "boom")).2
      = { score := 0, max_score := 100, short_comment := "Error",
          errors := [], analysis_md := "错误: " ++ "boom" }
    ∧ (App.grade_with_qwen sampleImg 100 (Except.ok (Json.arr []))).2
      = { score := 0, max_score := 100, short_comment := "[Error] 批改失败",
          errors := [], analysis_md := "- 错误详情: " ++ "AttributeError: get" }
    ∧ (StreamlitApp.grade_with_qwen sampleImg none 100 (Except.ok (Json.arr []))).2
      = { score := 0, max_score := 100, short_comment := "Error",
          errors := [], analysis_md := "错误: " ++ "AttributeError: get" } := by
  have h := c8_exception_fallback sampleImg none 100 "boom"
    (Json.arr []) (Json.arr []) "AttributeError: get" "AttributeError: get" rfl rfl
  exact ⟨rfl, h.1, h.2.1, h.2.2.1, h.2.2.2⟩

/-- An error rectangle has no fill. -/
theorem err_rect_fill (e : ErrorItem) (w h : Nat) :
    DrawCmd.rectFill (App.error_rect e w h) = none := rfl

/-- An error rectangle's outline is the semi-transparent red
(255, 0, 0, 200). -/
theorem err_rect_outline (e : ErrorItem) (w h : Nat) :
    DrawCmd.rectOutline (App.error_rect e w h) = some ⟨255, 0, 0, 200⟩ := rfl

/-- Every command of `app.py`'s trace is either an error rectangle of a
length-four box or one of the stamp commands. -/
theorem app_cmd_cases (env : App.FsEnv) (image : PImage) (result : GradeResult)
    (cmd : DrawCmd)
    (hc : cmd ∈ (App.draw_result_on_image env image result).cmds) :
    (∃ e ∈ result.errors, e.box.length = 4
        ∧ cmd = App.error_rect e image.width image.height)
    ∨ cmd ∈ App.stamp_cmds env image.width image.height result := by
  rw [app_draw_cmds] at hc
  rcases List.mem_append.mp hc with h | h
  · left
    obtain ⟨e, he, hf⟩ := List.mem_filterMap.mp h
    by_cases h4 : e.box.length = 4
    · rw [if_pos h4] at hf
      exact ⟨e, he, h4, (Option.some_inj.mp hf).symm⟩
    · rw [if_neg h4] at hf
      exact absurd hf (by simp)
  · exact Or.inr h

/-- The stamp commands of `app.py` have semi-transparent fills. -/
theorem app_stamp_fill (env : App.FsEnv) (w h : Nat) (result : GradeResult)
    (cmd : DrawCmd) (hc : cmd ∈ App.stamp_cmds env w h result) :
    ∀ f ∈ cmd.rectFill, f.a < 255 := by
  simp only [App.stamp_cmds, List.mem_cons, List.not_mem_nil, or_false] at hc
  rcases hc with rfl | rfl | rfl | rfl <;> simp [DrawCmd.rectFill]

/-- No stamp command of `app.py` is an error rectangle. -/
theorem app_stamp_not_err (env : App.FsEnv) (w h : Nat) (result : GradeResult)
    (cmd : DrawCmd) (hc : cmd ∈ App.stamp_cmds env w h result) :
    DrawCmd.isErrRect cmd = false := by
  simp only [App.stamp_cmds, List.mem_cons, List.not_mem_nil, or_false] at hc
  rcases hc with rfl | rfl | rfl | rfl <;> rfl

/-- The stamp commands of `streamlit_app.py` have semi-transparent fills
and fully opaque outlines, in both the zero-score and nonzero styling. -/
theorem stl_stamp_props (senv : StreamlitApp.StlEnv) (w : Nat)
    (result : GradeResult) (cmd : DrawCmd)
    (hc : cmd ∈ StreamlitApp.stamp_cmds senv w result) :
    (∀ f ∈ cmd.rectFill, f.a < 255) ∧ (∀ o ∈ cmd.rectOutline, o.a = 255) := by
  by_cases hz : result.score = 0 <;>
    simp only [StreamlitApp.stamp_cmds, hz, if_pos, if_neg, if_true, if_false,
      List.mem_cons, List.not_mem_nil, or_false] at hc <;>
    rcases hc with rfl | rfl | rfl <;>
    simp [DrawCmd.rectFill, DrawCmd.rectOutline, hz]

/-- C3 counterexample: the claim that every fill and outline drawn on the
annotation layer is semi-transparent is false at a concrete photo and
result — `app.py`'s stamp border (220, 20, 60, 255) and its texts are
fully opaque. -/
theorem c3_overlay_counterexample :
    ¬ ∀ cmd ∈ (App.draw_result_on_image sampleFsEnv sampleImg sampleRes).cmds,
        ∀ c ∈ cmd.colors, c.a < 255 := by
  decide

/-- C3 amended: the annotations are drawn onto a newly created, fully
transparent RGBA layer of the photo's size and the output is the
alpha-composite of the photo with that layer, converted to RGB; the
rectangle fills and the error-box outlines are semi-transparent, but the
stamp's border outline (and the text) is fully opaque. -/
theorem c3_overlay_amended (env : App.FsEnv) (senv : StreamlitApp.StlEnv)
    (image : PImage) (result : GradeResult) :
    ((App.draw_result_on_image env image result).layer_fill = ⟨255, 255, 255, 0⟩
      ∧ (App.draw_result_on_image env image result).layer_size
          = (image.width, image.height)
      ∧ (App.draw_result_on_image env image result).out
          = some { width := image.width, height := image.height,
                   mode := "RGB", orientation := image.orientation }
      ∧ (∀ cmd ∈ (App.draw_result_on_image env image result).cmds,
           ∀ f ∈ cmd.rectFill, f.a < 255)
      ∧ (∀ cmd ∈ (App.draw_result_on_image env image result).cmds,
           cmd.isErrRect = true → cmd.rectOutline = some ⟨255, 0, 0, 200⟩)
      ∧ (∃ cmd ∈ (App.draw_result_on_image env image result).cmds,
           cmd.rectOutline = some ⟨220, 20, 60, 255⟩))
    ∧ ((StreamlitApp.draw_result senv image result).layer_fill = ⟨255, 255, 255, 0⟩
      ∧ (StreamlitApp.draw_result senv image result).layer_size
          = (image.width, image.height)
      ∧ (StreamlitApp.draw_result senv image result).out
          = some { width := image.width, height := image.height,
                   mode := "RGB", orientation := image.orientation }
      ∧ (∀ cmd ∈ (StreamlitApp.draw_result senv image result).cmds,
           ∀ f ∈ cmd.rectFill, f.a < 255)
      ∧ (∀ cmd ∈ (StreamlitApp.draw_result senv image result).cmds,
           ∀ o ∈ cmd.rectOutline, o.a = 255)) := by
  constructor
  · refine ⟨rfl, rfl, ?_, ?_, ?_, ?_⟩
    · simp [App.draw_result_on_image, alpha_composite, PImage.convert]
    · intro cmd hc
      rcases app_cmd_cases env image result cmd hc with ⟨e, -, -, rfl⟩ | h
      · simp [err_rect_fill]
      · exact app_stamp_fill env image.width image.height result cmd h
    · intro cmd hc herr
      rcases app_cmd_cases env image result cmd hc with ⟨e, -, -, rfl⟩ | h
      · exact err_rect_outline e image.width image.height
      · rw [app_stamp_not_err env image.width image.height result cmd h] at herr
        cases herr
    · rw [app_draw_cmds]
      exact ⟨_, List.mem_append_right _ (List.mem_cons_self _ _), rfl⟩
  · refine ⟨rfl, rfl, ?_, ?_, ?_⟩
    · simp [StreamlitApp.draw_result, alpha_composite, PImage.convert, PImage.copy]
    · intro cmd hc
      exact (stl_stamp_props senv image.width result cmd hc).1
    · intro cmd hc
      exact (stl_stamp_props senv image.width result cmd hc).2

/-- A filled rounded rectangle is never an error rectangle. -/
theorem isErrRect_fill_some (coords : List ℚ) (radius : ℚ) (f : RGBA)
    (o : Option RGBA) (lw : Nat) :
    DrawCmd.isErrRect (DrawCmd.rrect coords radius (some f) o lw) = false := rfl

/-- A text command is never an error rectangle. -/
theorem isErrRect_text (x y : ℚ) (s : String) (fnt : PFont) (c : RGBA) :
    DrawCmd.isErrRect (DrawCmd.text x y s fnt c) = false := rfl

/-- `streamlit_app.py` draws no error rectangle at all. -/
theorem stl_no_err (senv : StreamlitApp.StlEnv) (w : Nat) (result : GradeResult) :
    (StreamlitApp.stamp_cmds senv w result).filter DrawCmd.isErrRect = [] := by
  simp [StreamlitApp.stamp_cmds, List.filter_cons, isErrRect_fill_some, isErrRect_text]

/-- C4 counterexample: at a concrete photo and a result with one error,
`streamlit_app.py`'s `draw_result` issues exactly one rectangle command —
the stamp badge — so no rectangle is drawn at the returned error's box
position, refuting that error highlights are drawn exactly for the
returned errors. -/
theorem c4_stamp_counterexample :
    sampleRes.errors.length = 1
    ∧ ((StreamlitApp.draw_result sampleStlEnv sampleImg sampleRes).cmds.countP
        (fun c => c.rectCoords.isSome)) = 1
    ∧ ((StreamlitApp.draw_result sampleStlEnv sampleImg sampleRes).cmds.filter
        DrawCmd.isErrRect) = [] := by
  refine ⟨rfl, by decide, stl_no_err sampleStlEnv sampleImg.width sampleRes⟩

/-- C4 amended: both apps stamp the output with a score badge anchored to
the top-right margins showing the score and the configured maximum; error
highlights are drawn only by `app.py` and exactly for the returned errors
whose box has four entries; `streamlit_app.py` draws no error rectangles. -/
theorem c4_stamp_amended (env : App.FsEnv) (senv : StreamlitApp.StlEnv)
    (image : PImage) (result : GradeResult) :
    (DrawCmd.rrect
        [((image.width - (max (image.width / 4) 250 : Nat) - 30 : Int) : ℚ),
         ((30 : Int) : ℚ), ((image.width - 30 : Int) : ℚ),
         ((30 + (max (image.height / 8) 140 : Nat) : Int) : ℚ)] 15
        (some ⟨255, 255, 255, 230⟩) (some ⟨220, 20, 60, 255⟩) 5
      ∈ (App.draw_result_on_image env image result).cmds)
    ∧ (∃ cmd ∈ (App.draw_result_on_image env image result).cmds,
         cmd.textStr = some (toString result.score))
    ∧ (∃ cmd ∈ (App.draw_result_on_image env image result).cmds,
         cmd.textStr = some ("/" ++ toString result.max_score))
    ∧ (App.draw_result_on_image env image result).cmds.filter DrawCmd.isErrRect
        = (result.errors.filter (fun e => e.box.length == 4)).map
            (fun e => App.error_rect e image.width image.height)
    ∧ (∃ bg col : RGBA, DrawCmd.rrect
        [((image.width - image.width / 4 - 20 : Int) : ℚ), ((20 : Int) : ℚ),
         ((image.width - 20 : Int) : ℚ),
         ((20 + (image.width / 4 * 55 / 100 : Nat) : Int) : ℚ)] 15
        (some bg) (some col) 4
        ∈ (StreamlitApp.draw_result senv image result).cmds)
    ∧ (∃ cmd ∈ (StreamlitApp.draw_result senv image result).cmds,
         cmd.textStr = some (toString result.score))
    ∧ (∃ cmd ∈ (StreamlitApp.draw_result senv image result).cmds,
         cmd.textStr = some ("/" ++ toString result.max_score))
    ∧ (StreamlitApp.draw_result senv image result).cmds.filter DrawCmd.isErrRect
        = [] := by
  refine ⟨?_, ?_, ?_, app_err_filter env image result, ?_, ?_, ?_, ?_⟩
  · rw [app_draw_cmds]
    exact List.mem_append_right _ (List.mem_cons_self _ _)
  · rw [app_draw_cmds]
    exact ⟨_, List.mem_append_right _
      (List.mem_cons_of_mem _ (List.mem_cons_self _ _)), rfl⟩
  · rw [app_draw_cmds]
    exact ⟨_, List.mem_append_right _ (List.mem_cons_of_mem _
      (List.mem_cons_of_mem _ (List.mem_cons_self _ _))), rfl⟩
  · exact ⟨_, _, List.mem_cons_self _ _⟩
  · exact ⟨_, List.mem_cons_of_mem _ (List.mem_cons_self _ _), rfl⟩
  · exact ⟨_, List.mem_cons_of_mem _
      (List.mem_cons_of_mem _ (List.mem_cons_self _ _)), rfl⟩
  · exact stl_no_err senv image.width result

/-- Witness for C3 amended at a concrete photo and result, including one
concrete error rectangle's semi-transparent outline. -/
theorem c3_overlay_amended_witness :
    (App.draw_result_on_image sampleFsEnv sampleImg sampleRes).layer_fill
      = ⟨255, 255, 255, 0⟩
    ∧ (StreamlitApp.draw_result sampleStlEnv sampleImg sampleRes).layer_size
      = (sampleImg.width, sampleImg.height)
    ∧ DrawCmd.rectOutline (App.error_rect sampleErr sampleImg.width sampleImg.height)
      = some ⟨255, 0, 0, 200⟩ :=
  ⟨(c3_overlay_amended sampleFsEnv sampleStlEnv sampleImg sampleRes).1.1,
   (c3_overlay_amended sampleFsEnv sampleStlEnv sampleImg sampleRes).2.2.1,
   (c3_overlay_amended sampleFsEnv sampleStlEnv sampleImg sampleRes).1.2.2.2.2.1
     (App.error_rect sampleErr sampleImg.width sampleImg.height)
     (by rw [app_draw_cmds]
         exact List.mem_append_left _ (List.mem_filterMap.mpr ⟨sampleErr, by decide, rfl⟩))
     rfl⟩

/-- C2 counterexample: in `app.py` the captured photo reaches the grading
request unchanged — the base64 payload's source is the 1600 × 1200 capture
itself, wider than the repository's 800-pixel downscale target — so no
downscaling step precedes encoding in that app. -/
theorem c2_downscale_counterexample :
    (App.app_run sampleFsEnv c2_app_events).sent
      = some { source := sampleImgWide, format := "JPEG", quality := 85 }
    ∧ sampleImgWide.width = 1600
    ∧ ¬ sampleImgWide.width ≤ 800 := by
  exact ⟨rfl, rfl, by decide⟩

/-- C2 amended: only `streamlit_app.py` downscales before encoding — the
image handed to its grading request is the `process_image_for_ai` output,
resized to width 800 (no wider than a capture of width at least 800) —
while `app.py` base64-encodes the captured image at its original size. -/
theorem c2_downscale_amended (env : App.FsEnv) (senv : StreamlitApp.StlEnv)
    (img : PImage) (name : String) (resp : Except String Json) (ms : Int)
    (h8 : 800 ≤ img.width) :
    (StreamlitApp.stl_run senv
        [StreamlitApp.StlEvent.setup_submit "k",
         StreamlitApp.StlEvent.scan_input (some (name, img)),
         StreamlitApp.StlEvent.review_render resp false]).sent
      = some [StreamlitApp.pil_to_base64 (StreamlitApp.process_image_for_ai img)]
    ∧ (StreamlitApp.process_image_for_ai img).width = 800
    ∧ (StreamlitApp.process_image_for_ai img).width ≤ img.width
    ∧ (App.app_run env
        [App.AppEvent.set_key "k",
         App.AppEvent.scan_input (some img),
         App.AppEvent.review_render ms resp false]).sent
      = some (App.pil_to_base64 img) := by
  refine ⟨?_, rfl, h8, ?_⟩
  · simp [StreamlitApp.stl_run, StreamlitApp.stl_step, StreamlitApp.stl_init,
      StreamlitApp.grade_with_qwen]
  · simp [App.app_run, App.app_step, App.app_init, App.grade_with_qwen]

/-- Witness for C2 amended at the 1600 × 1200 capture. -/
theorem c2_downscale_amended_witness :
    800 ≤ sampleImgWide.width
    ∧ ((StreamlitApp.stl_run sampleStlEnv
          [StreamlitApp.StlEvent.setup_submit "k",
           StreamlitApp.StlEvent.scan_input (some ("a.jpg", sampleImgWide)),
           StreamlitApp.StlEvent.review_render (Except.error "e") false]).sent
        = some [StreamlitApp.pil_to_base64
            (StreamlitApp.process_image_for_ai sampleImgWide)]
      ∧ (StreamlitApp.process_image_for_ai sampleImgWide).width = 800
      ∧ (StreamlitApp.process_image_for_ai sampleImgWide).width ≤ sampleImgWide.width
      ∧ (App.app_run sampleFsEnv
          [App.AppEvent.set_key "k",
           App.AppEvent.scan_input (some sampleImgWide),
           App.AppEvent.review_render 100 (Except.error "e") false]).sent
        = some (App.pil_to_base64 sampleImgWide)) :=
  ⟨by decide,
   c2_downscale_amended sampleFsEnv sampleStlEnv sampleImgWide "a.jpg"
     (Except.error "e") 100 (by decide)⟩

/-- One `app.py` step either keeps the mode or moves it to "scan" or
"review". -/
theorem app_step_mode_cases (env : App.FsEnv) (s : App.AppState)
    (ev : App.AppEvent) :
    (App.app_step env s ev).mode = s.mode
    ∨ (App.app_step env s ev).mode = "scan"
    ∨ (App.app_step env s ev).mode = "review" := by
  cases ev <;> simp only [App.app_step] <;> (repeat' split) <;> simp

/-- The mode invariant is preserved by one `app.py` step. -/
theorem app_step_mode (env : App.FsEnv) (s : App.AppState) (ev : App.AppEvent)
    (h : s.mode = "scan" ∨ s.mode = "review") :
    (App.app_step env s ev).mode = "scan"
    ∨ (App.app_step env s ev).mode = "review" := by
  rcases app_step_mode_cases env s ev with hm | hm | hm
  · rw [hm]; exact h
  · exact Or.inl hm
  · exact Or.inr hm

/-- One `streamlit_app.py` step either keeps the page or moves it to
"setup", "scan" or "review". -/
theorem stl_step_page_cases (senv : StreamlitApp.StlEnv)
    (s : StreamlitApp.StlState) (ev : StreamlitApp.StlEvent) :
    (StreamlitApp.stl_step senv s ev).page = s.page
    ∨ (StreamlitApp.stl_step senv s ev).page = "setup"
    ∨ (StreamlitApp.stl_step senv s ev).page = "scan"
    ∨ (StreamlitApp.stl_step senv s ev).page = "review" := by
  cases ev <;> simp only [StreamlitApp.stl_step] <;> (repeat' split) <;> simp

/-- The page invariant is preserved by one `streamlit_app.py` step. -/
theorem stl_step_page (senv : StreamlitApp.StlEnv) (s : StreamlitApp.StlState)
    (ev : StreamlitApp.StlEvent)
    (h : s.page = "setup" ∨ s.page = "scan" ∨ s.page = "review") :
    (StreamlitApp.stl_step senv s ev).page = "setup"
    ∨ (StreamlitApp.stl_step senv s ev).page = "scan"
    ∨ (StreamlitApp.stl_step senv s ev).page = "review" := by
  rcases stl_step_page_cases senv s ev with hm | hm | hm | hm
  · rw [hm]; exact h
  · exact Or.inl hm
  · exact Or.inr (Or.inl hm)
  · exact Or.inr (Or.inr hm)

/-- The mode invariant holds along every `app.py` run. -/
theorem app_run_mode (env : App.FsEnv) (evs : List App.AppEvent) :
    (App.app_run env evs).mode = "scan" ∨ (App.app_run env evs).mode = "review" := by
  have key : ∀ s : App.AppState, (s.mode = "scan" ∨ s.mode = "review") →
      ((evs.foldl (App.app_step env) s).mode = "scan"
        ∨ (evs.foldl (App.app_step env) s).mode = "review") := by
    induction evs with
    | nil => exact fun s h => h
    | cons e t ih => exact fun s h => ih _ (app_step_mode env s e h)
  exact key App.app_init (Or.inl rfl)

/-- The page invariant holds along every `streamlit_app.py` run. -/
theorem stl_run_page (senv : StreamlitApp.StlEnv)
    (evs : List StreamlitApp.StlEvent) :
    (StreamlitApp.stl_run senv evs).page = "setup"
    ∨ (StreamlitApp.stl_run senv evs).page = "scan"
    ∨ (StreamlitApp.stl_run senv evs).page = "review" := by
  have key : ∀ s : StreamlitApp.StlState,
      (s.page = "setup" ∨ s.page = "scan" ∨ s.page = "review") →
      ((evs.foldl (StreamlitApp.stl_step senv) s).page = "setup"
        ∨ (evs.foldl (StreamlitApp.stl_step senv) s).page = "scan"
        ∨ (evs.foldl (StreamlitApp.stl_step senv) s).page = "review") := by
    induction evs with
    | nil => exact fun s h => h
    | cons e t ih => exact fun s h => ih _ (stl_step_page senv s e h)
  exact key StreamlitApp.stl_init (Or.inl rfl)

/-- C7 counterexample: in `streamlit_app.py` an image provided on the scan
page does not always move the session to review.  After grading `a.jpg`,
visiting the setup page via the sidebar button and coming back, the
session is on the scan page with `last_processed` still equal to `a.jpg`;
providing `a.jpg` again leaves the page at "scan". -/
theorem c7_state_machine_counterexample :
    (StreamlitApp.stl_run sampleStlEnv c7_events_head).page = "scan"
    ∧ (StreamlitApp.stl_step sampleStlEnv
        (StreamlitApp.stl_run sampleStlEnv c7_events_head)
        (StreamlitApp.StlEvent.scan_input (some ("a.jpg", sampleImg)))).page
      = "scan" := by
  exact ⟨rfl, rfl⟩

/-- C7 amended: the UI is a state machine whose mode stays within the
finite state set ("scan"/"review" in `app.py`; "setup"/"scan"/"review" in
`streamlit_app.py`); in `app.py` providing an image on the scan page (the
page is only rendered with a saved API key) moves to review, and in
`streamlit_app.py` providing an image on the scan page moves to review
only when its filename differs from `last_processed`; the next-student
button on the review page deletes the per-student keys (captured/clean
image, grade result, stamped/final image) and moves back to scan. -/
theorem c7_state_machine_amended (env : App.FsEnv) (senv : StreamlitApp.StlEnv) :
    (∀ evs : List App.AppEvent,
        (App.app_run env evs).mode = "scan" ∨ (App.app_run env evs).mode = "review")
    ∧ (∀ evs : List StreamlitApp.StlEvent,
        (StreamlitApp.stl_run senv evs).page = "setup"
        ∨ (StreamlitApp.stl_run senv evs).page = "scan"
        ∨ (StreamlitApp.stl_run senv evs).page = "review")
    ∧ (∀ (s : App.AppState) (img : PImage), s.api_key ≠ "" → s.mode = "scan" →
        (App.app_step env s (App.AppEvent.scan_input (some img))).mode = "review"
        ∧ (App.app_step env s
            (App.AppEvent.scan_input (some img))).captured_image = some img)
    ∧ (∀ (s : App.AppState) (ms : Int) (resp : Except String Json),
        s.api_key ≠ "" → s.mode = "review" → s.captured_image ≠ none →
        (App.app_step env s (App.AppEvent.review_render ms resp true)).mode = "scan"
        ∧ (App.app_step env s
            (App.AppEvent.review_render ms resp true)).captured_image = none
        ∧ (App.app_step env s
            (App.AppEvent.review_render ms resp true)).grade_result = none
        ∧ (App.app_step env s
            (App.AppEvent.review_render ms resp true)).stamped_image = none)
    ∧ (∀ (s : StreamlitApp.StlState) (name : String) (img : PImage),
        s.page = "scan" → s.last_processed ≠ some name →
        (StreamlitApp.stl_step senv s
          (StreamlitApp.StlEvent.scan_input (some (name, img)))).page = "review")
    ∧ (∀ (s : StreamlitApp.StlState) (resp : Except String Json),
        s.page = "review" → s.clean_image ≠ none →
        (StreamlitApp.stl_step senv s
          (StreamlitApp.StlEvent.review_render resp true)).page = "scan"
        ∧ (StreamlitApp.stl_step senv s
            (StreamlitApp.StlEvent.review_render resp true)).clean_image = none
        ∧ (StreamlitApp.stl_step senv s
            (StreamlitApp.StlEvent.review_render resp true)).grade_result = none
        ∧ (StreamlitApp.stl_step senv s
            (StreamlitApp.StlEvent.review_render resp true)).final_image = none) := by
  refine ⟨app_run_mode env, stl_run_page senv, ?_, ?_, ?_, ?_⟩
  · intro s img h1 h2
    simp [App.app_step, h1, h2]
  · intro s ms resp h1 h2 h3
    obtain ⟨img, himg⟩ := Option.ne_none_iff_exists'.mp h3
    simp [App.app_step, h1, h2, himg]
  · intro s name img h1 h2
    simp [StreamlitApp.stl_step, h1, h2]
  · intro s resp h1 h2
    obtain ⟨⟨cid, cimg⟩, hci⟩ := Option.ne_none_iff_exists'.mp h2
    simp [StreamlitApp.stl_step, h1, hci]

/-- Witness for C7 amended at concrete scan and review sessions. -/
theorem c7_state_machine_amended_witness :
    ((App.app_step sampleFsEnv sampleScanState
        (App.AppEvent.scan_input (some sampleImg))).mode = "review"
      ∧ (App.app_step sampleFsEnv sampleScanState
          (App.AppEvent.scan_input (some sampleImg))).captured_image = some sampleImg)
    ∧ ((App.app_step sampleFsEnv sampleReviewState
          (App.AppEvent.review_render 100 (Except.error "e") true)).mode = "scan"
      ∧ (App.app_step sampleFsEnv sampleReviewState
          (App.AppEvent.review_render 100 (Except.error "e") true)).captured_image = none
      ∧ (App.app_step sampleFsEnv sampleReviewState
          (App.AppEvent.review_render 100 (Except.error "e") true)).grade_result = none
      ∧ (App.app_step sampleFsEnv sampleReviewState
          (App.AppEvent.review_render 100 (Except.error "e") true)).stamped_image = none)
    ∧ (StreamlitApp.stl_step sampleStlEnv sampleStlScanState
        (StreamlitApp.StlEvent.scan_input (some ("b.jpg", sampleImg)))).page = "review"
    ∧ ((StreamlitApp.stl_step sampleStlEnv sampleStlReviewState
          (StreamlitApp.StlEvent.review_render (Except.error "e") true)).page = "scan"
      ∧ (StreamlitApp.stl_step sampleStlEnv sampleStlReviewState
          (StreamlitApp.StlEvent.review_render (Except.error "e") true)).clean_image = none
      ∧ (StreamlitApp.stl_step sampleStlEnv sampleStlReviewState
          (StreamlitApp.StlEvent.review_render (Except.error "e") true)).grade_result = none
      ∧ (StreamlitApp.stl_step sampleStlEnv sampleStlReviewState
          (StreamlitApp.StlEvent.review_render (Except.error "e") true)).final_image = none) :=
  ⟨(c7_state_machine_amended sampleFsEnv sampleStlEnv).2.2.1 sampleScanState
      sampleImg (by decide) rfl,
   (c7_state_machine_amended sampleFsEnv sampleStlEnv).2.2.2.1 sampleReviewState
      100 (Except.error "e") (by decide) rfl (by decide),
   (c7_state_machine_amended sampleFsEnv sampleStlEnv).2.2.2.2.1 sampleStlScanState
      "b.jpg" sampleImg rfl (by decide),
   (c7_state_machine_amended sampleFsEnv sampleStlEnv).2.2.2.2.2 sampleStlReviewState
      (Except.error "e") rfl (by decide)⟩
